import Mathlib

/-!
Shallow embedding of the HP Book Nook firmware (`main.c`): an ATtiny412
controller driving eight LED strips through a 74HC595 shift register,
with a motion auto-off countdown timer and an adaptive-baseline
capacitive touch detector.

The C globals become the fields of a state structure; each interrupt
handler and strip operation becomes a pure function from state to state,
additionally returning the list of bytes serialized to the shift
register (each element is one `shift_out` call, in order).
Machine integers are modelled as `Nat`, with an explicit `% 2^w` at the
points where the C fixed-width arithmetic can actually wrap
(the `uint8_t` debounce counter increment, the `uint16_t` baseline
accumulation, the `uint16_t` sample sum).
-/

namespace BookNook

/-- Source macro: `#define TIMEOUT_SEC 5`. -/
def TIMEOUT_SEC : Nat := 5

/-- Source macro: `#define ALL_LEDS 0xFF`. -/
def ALL_LEDS : Nat := 0xFF

/-- Source macro: `#define TOUCH_SAMPLES 64`. -/
def TOUCH_SAMPLES : Nat := 64

/-- Source macro: `#define TOUCH_THRESHOLD 20`. -/
def TOUCH_THRESHOLD : Nat := 20

/-- Source macro: `#define TOUCH_DEBOUNCE 5`. -/
def TOUCH_DEBOUNCE : Nat := 5

/-- Source macro: `#define BASELINE_SHIFT 7`. -/
def BASELINE_SHIFT : Nat := 7

/-- The firmware's global mutable state: `led_timer`, `shift_reg_state`,
`motion_enabled_strips` (all `uint8_t`), `touch_baseline` (`uint16_t`),
`touch_debounce_cnt` (`uint8_t`) and `touch_state`
(`uint8_t` used as a boolean: 0 = released, 1 = touched). -/
structure St where
  led_timer : Nat
  shift_reg_state : Nat
  motion_enabled_strips : Nat
  touch_baseline : Nat
  touch_debounce_cnt : Nat
  touch_state : Bool
deriving DecidableEq, Repr

/-- Source function `strip_on`: `shift_reg_state |= strip_mask; shift_out(shift_reg_state);`.
The returned list holds the bytes passed to `shift_out`. -/
def strip_on (strip_mask : Nat) (s : St) : St × List Nat :=
  let ns := s.shift_reg_state ||| strip_mask
  ({ s with shift_reg_state := ns }, [ns])

/-- Source function `strip_off`: `shift_reg_state &= ~strip_mask; shift_out(shift_reg_state);`.
`~strip_mask` on the 8-bit domain is `strip_mask ^^^ 0xFF`. -/
def strip_off (strip_mask : Nat) (s : St) : St × List Nat :=
  let ns := s.shift_reg_state &&& (strip_mask ^^^ ALL_LEDS)
  ({ s with shift_reg_state := ns }, [ns])

/-- Source function `strip_set`: `shift_reg_state = strip_mask; shift_out(shift_reg_state);` -/
def strip_set (strip_mask : Nat) (s : St) : St × List Nat :=
  ({ s with shift_reg_state := strip_mask }, [strip_mask])

/-- Source function `strip_toggle`: `shift_reg_state ^= strip_mask; shift_out(shift_reg_state);` -/
def strip_toggle (strip_mask : Nat) (s : St) : St × List Nat :=
  let ns := s.shift_reg_state ^^^ strip_mask
  ({ s with shift_reg_state := ns }, [ns])

/-- Source function `strip_motion_enable`: `motion_enabled_strips |= strip_mask;` (no `shift_out`). -/
def strip_motion_enable (strip_mask : Nat) (s : St) : St × List Nat :=
  ({ s with motion_enabled_strips := s.motion_enabled_strips ||| strip_mask }, [])

/-- Source function `strip_motion_disable`: `motion_enabled_strips &= ~strip_mask;` (no `shift_out`). -/
def strip_motion_disable (strip_mask : Nat) (s : St) : St × List Nat :=
  ({ s with motion_enabled_strips :=
      s.motion_enabled_strips &&& (strip_mask ^^^ ALL_LEDS) }, [])

/-- Source handler `ISR(PORTA_PORT_vect)`, the motion-edge handler:
`shift_reg_state |= motion_enabled_strips; shift_out(shift_reg_state);
led_timer = TIMEOUT_SEC;` (the flag clear is hardware bookkeeping). -/
def motionEdge (s : St) : St × List Nat :=
  let ns := s.shift_reg_state ||| s.motion_enabled_strips
  ({ s with shift_reg_state := ns, led_timer := TIMEOUT_SEC }, [ns])

/-- Source handler `ISR(TCA0_OVF_vect)`, the 1 Hz tick handler. `motion` is the live
level test `!(PORTA.IN & MOTION_PIN)` (true when the active-low motion
input is asserted). -/
def tick (motion : Bool) (s : St) : St × List Nat :=
  match motion with
  | true => ({ s with led_timer := TIMEOUT_SEC }, [])
  | false =>
    if 0 < s.led_timer then
      let t := s.led_timer - 1
      if t = 0 then
        let ns := s.shift_reg_state &&& (s.motion_enabled_strips ^^^ ALL_LEDS)
        ({ s with led_timer := t, shift_reg_state := ns }, [ns])
      else
        ({ s with led_timer := t }, [])
    else
      (s, [])

/-- Iterate the 1 Hz tick with motion deasserted, collecting all writes. -/
def tickN : Nat → St → St × List Nat
  | 0, s => (s, [])
  | n + 1, s =>
    let a := tick false s
    let b := tickN n a.1
    (b.1, a.2 ++ b.2)

/-- Source expression `tentative = (reading > baseline) && ((reading - baseline) >= TOUCH_THRESHOLD)`,
the instantaneous pre-debounce classification of one scan. -/
def tentativeOf (reading baseline : Nat) : Bool :=
  decide (baseline < reading) && decide (TOUCH_THRESHOLD ≤ reading - baseline)

/-- The debounce block of `ISR(TCB0_INT_vect)`: if the tentative state
disagrees with `touch_state`, increment `touch_debounce_cnt` (a `uint8_t`,
hence `% 256`); at `TOUCH_DEBOUNCE` commit the tentative state, zero the
counter and drive all strips; otherwise zero the counter. -/
def touchDebounceStep (tentative : Bool) (s : St) : St × List Nat :=
  if tentative ≠ s.touch_state then
    let cnt := (s.touch_debounce_cnt + 1) % 256
    if TOUCH_DEBOUNCE ≤ cnt then
      let s2 := { s with touch_state := tentative, touch_debounce_cnt := 0 }
      if tentative then strip_on ALL_LEDS s2 else strip_off ALL_LEDS s2
    else
      ({ s with touch_debounce_cnt := cnt }, [])
  else
    ({ s with touch_debounce_cnt := 0 }, [])

/-- The adaptive-baseline block of `ISR(TCB0_INT_vect)`: only while
`!touch_state`, nudge `touch_baseline` toward `reading` by the absolute
error shifted right by `BASELINE_SHIFT`. `baseline` is the local copy
taken at the top of the scan; the stored field is `uint16_t`. -/
def baselineAdapt (reading baseline : Nat) (s : St) : St :=
  if s.touch_state = false then
    if baseline < reading then
      { s with touch_baseline :=
          (s.touch_baseline + ((reading - baseline) >>> BASELINE_SHIFT)) % 65536 }
    else if reading < baseline then
      { s with touch_baseline :=
          s.touch_baseline - ((baseline - reading) >>> BASELINE_SHIFT) }
    else s
  else s

/-- Source handler `ISR(TCB0_INT_vect)`, one touch scan: classify the filtered `reading`
against the baseline, run the debounce block, then the baseline block
(which reads the possibly-updated `touch_state` but the pre-scan local
`baseline`). -/
def touchScan (reading : Nat) (s : St) : St × List Nat :=
  let baseline := s.touch_baseline
  let tentative := tentativeOf reading baseline
  let a := touchDebounceStep tentative s
  (baselineAdapt reading baseline a.1, a.2)

/-- Iterate touch scans over a list of filtered readings, collecting writes. -/
def runScans : List Nat → St → St × List Nat
  | [], s => (s, [])
  | r :: rs, s =>
    let a := touchScan r s
    let b := runScans rs a.1
    (b.1, a.2 ++ b.2)

/-- Source function `touch_measure_filtered`: sum `TOUCH_SAMPLES` raw readings into a
`uint16_t` accumulator (wrapping `% 65536`) and return `sum >> 6`.
The raw ADC readings are supplied as a list. -/
def touch_measure_filtered (raw : List Nat) : Nat :=
  (raw.foldl (fun sum r => (sum + r) % 65536) 0) >>> 6

/-! Helper lemmas -/

lemma or_255_of_lt (x : Nat) (h : x < 256) : x ||| 255 = 255 := by
  apply Nat.eq_of_testBit_eq
  intro i
  rcases lt_or_ge i 8 with hi | hi
  · have h255 : Nat.testBit 255 i = true := by
      interval_cases i <;> decide
    simp [Nat.testBit_or, h255]
  · have hpow : (256 : Nat) ≤ 2 ^ i := by
      calc (256 : Nat) = 2 ^ 8 := by norm_num
      _ ≤ 2 ^ i := Nat.pow_le_pow_right (by norm_num) hi
    have hx : Nat.testBit x i = false :=
      Nat.testBit_eq_false_of_lt (lt_of_lt_of_le h hpow)
    have h255 : Nat.testBit 255 i = false :=
      Nat.testBit_eq_false_of_lt (lt_of_lt_of_le (by norm_num) hpow)
    simp [Nat.testBit_or, hx, h255]

lemma shiftRight_le_self (n k : Nat) : n >>> k ≤ n := by
  rw [Nat.shiftRight_eq_div_pow]
  exact Nat.div_le_self n (2 ^ k)

lemma shiftRight_small_eq_zero (n : Nat) (h : n < 128) : n >>> BASELINE_SHIFT = 0 := by
  rw [Nat.shiftRight_eq_div_pow]
  apply Nat.div_eq_of_lt
  have hp : (2 : Nat) ^ BASELINE_SHIFT = 128 := by norm_num [BASELINE_SHIFT]
  omega

@[simp] lemma baselineAdapt_touch_state (r b : Nat) (s : St) :
    (baselineAdapt r b s).touch_state = s.touch_state := by
  unfold baselineAdapt
  repeat' split
  all_goals rfl

@[simp] lemma baselineAdapt_touch_debounce_cnt (r b : Nat) (s : St) :
    (baselineAdapt r b s).touch_debounce_cnt = s.touch_debounce_cnt := by
  unfold baselineAdapt
  repeat' split
  all_goals rfl

@[simp] lemma baselineAdapt_shift_reg_state (r b : Nat) (s : St) :
    (baselineAdapt r b s).shift_reg_state = s.shift_reg_state := by
  unfold baselineAdapt
  repeat' split
  all_goals rfl

@[simp] lemma touchDebounceStep_touch_baseline (t : Bool) (s : St) :
    (touchDebounceStep t s).1.touch_baseline = s.touch_baseline := by
  unfold touchDebounceStep strip_on strip_off
  dsimp only
  repeat' split
  all_goals rfl

lemma touchDebounceStep_agree (t : Bool) (s : St) (h : t = s.touch_state) :
    touchDebounceStep t s = ({ s with touch_debounce_cnt := 0 }, []) := by
  simp [touchDebounceStep, h]

lemma touchDebounceStep_pending (t : Bool) (s : St) (h : t ≠ s.touch_state)
    (hc : s.touch_debounce_cnt + 1 < TOUCH_DEBOUNCE) :
    touchDebounceStep t s =
      ({ s with touch_debounce_cnt := s.touch_debounce_cnt + 1 }, []) := by
  have hlt : (s.touch_debounce_cnt + 1) % 256 = s.touch_debounce_cnt + 1 :=
    Nat.mod_eq_of_lt (by unfold TOUCH_DEBOUNCE at hc; omega)
  have hno : ¬ TOUCH_DEBOUNCE ≤ s.touch_debounce_cnt + 1 := by omega
  simp [touchDebounceStep, h, hlt, hno]

lemma touchDebounceStep_commit (t : Bool) (s : St) (h : t ≠ s.touch_state)
    (hc : s.touch_debounce_cnt = TOUCH_DEBOUNCE - 1) :
    touchDebounceStep t s =
      (if t then strip_on ALL_LEDS { s with touch_state := t, touch_debounce_cnt := 0 }
       else strip_off ALL_LEDS { s with touch_state := t, touch_debounce_cnt := 0 }) := by
  have hyes : TOUCH_DEBOUNCE ≤ (s.touch_debounce_cnt + 1) % 256 := by
    rw [hc]; decide
  simp [touchDebounceStep, h, hyes]

lemma touchScan_agree (r : Nat) (s : St)
    (h : tentativeOf r s.touch_baseline = s.touch_state) :
    (touchScan r s).1.touch_state = s.touch_state ∧
    (touchScan r s).1.touch_debounce_cnt = 0 ∧
    (touchScan r s).1.shift_reg_state = s.shift_reg_state ∧
    (touchScan r s).2 = [] := by
  unfold touchScan
  dsimp only
  rw [touchDebounceStep_agree _ _ h]
  simp

lemma touchScan_pending (r : Nat) (s : St)
    (h : tentativeOf r s.touch_baseline ≠ s.touch_state)
    (hc : s.touch_debounce_cnt + 1 < TOUCH_DEBOUNCE) :
    (touchScan r s).1.touch_state = s.touch_state ∧
    (touchScan r s).1.touch_debounce_cnt = s.touch_debounce_cnt + 1 ∧
    (touchScan r s).1.shift_reg_state = s.shift_reg_state ∧
    (touchScan r s).2 = [] := by
  unfold touchScan
  dsimp only
  rw [touchDebounceStep_pending _ _ h hc]
  simp

lemma touchScan_commit (r : Nat) (s : St)
    (h : tentativeOf r s.touch_baseline ≠ s.touch_state)
    (hc : s.touch_debounce_cnt = TOUCH_DEBOUNCE - 1)
    (hsr : s.shift_reg_state < 256) :
    (touchScan r s).1.touch_state = tentativeOf r s.touch_baseline ∧
    (touchScan r s).1.touch_debounce_cnt = 0 ∧
    (touchScan r s).1.shift_reg_state =
      (if tentativeOf r s.touch_baseline then ALL_LEDS else 0) ∧
    (touchScan r s).2 = [if tentativeOf r s.touch_baseline then ALL_LEDS else 0] := by
  unfold touchScan
  dsimp only
  rw [touchDebounceStep_commit _ _ h hc]
  cases htent : tentativeOf r s.touch_baseline
  · simp [htent, strip_off, ALL_LEDS]
  · have hor := or_255_of_lt s.shift_reg_state hsr
    simp [htent, strip_on, ALL_LEDS, hor]

lemma baselineAdapt_frozen (r b : Nat) (s1 : St) (h : s1.touch_state = true) :
    baselineAdapt r b s1 = s1 := by
  simp [baselineAdapt, h]

lemma baselineAdapt_active (r b : Nat) (s1 : St) (h : s1.touch_state = false) :
    (baselineAdapt r b s1).touch_baseline =
      if b < r then (s1.touch_baseline + ((r - b) >>> BASELINE_SHIFT)) % 65536
      else s1.touch_baseline - ((b - r) >>> BASELINE_SHIFT) := by
  simp only [baselineAdapt, h]
  by_cases h1 : b < r
  · simp [h1]
  · by_cases h2 : r < b
    · simp [h1, h2]
    · have hbr : b - r = 0 := by omega
      simp [h1, h2, hbr]

lemma tick_true_eq (s : St) : tick true s = ({ s with led_timer := TIMEOUT_SEC }, []) :=
  rfl

lemma tick_false_idle (s : St) (h : s.led_timer = 0) : tick false s = (s, []) := by
  simp [tick, h]

lemma tick_false_dec (s : St) (h0 : 0 < s.led_timer) (h1 : s.led_timer ≠ 1) :
    tick false s = ({ s with led_timer := s.led_timer - 1 }, []) := by
  have hne : ¬ (s.led_timer - 1 = 0) := by omega
  simp [tick, h0, hne]

lemma tick_false_expire (s : St) (h : s.led_timer = 1) :
    tick false s =
      ({ s with
          led_timer := 0,
          shift_reg_state := s.shift_reg_state &&& (s.motion_enabled_strips ^^^ ALL_LEDS) },
       [s.shift_reg_state &&& (s.motion_enabled_strips ^^^ ALL_LEDS)]) := by
  simp [tick, h]

lemma tickN_idle (k : Nat) (s : St) (h : s.led_timer = 0) : tickN k s = (s, []) := by
  induction k with
  | zero => rfl
  | succ k ih =>
    simp only [tickN]
    rw [tick_false_idle s h]
    simp [ih]

lemma tickN_add (m k : Nat) (s : St) :
    tickN (m + k) s =
      ((tickN k (tickN m s).1).1, (tickN m s).2 ++ (tickN k (tickN m s).1).2) := by
  induction m generalizing s with
  | zero => simp [tickN]
  | succ m ih =>
    have e : m + 1 + k = (m + k) + 1 := by omega
    rw [e]
    simp only [tickN]
    rw [ih]
    simp [List.append_assoc]

lemma tickN_no_write : ∀ (m n : Nat) (s : St), s.led_timer = n → m < n →
    tickN m s = ({ s with led_timer := n - m }, []) := by
  intro m
  induction m with
  | zero =>
    intro n s h hm
    rw [← h]
    simp [tickN]
  | succ m ih =>
    intro n s h hm
    simp only [tickN]
    rw [tick_false_dec s (by omega) (by omega)]
    have hstep : ({ s with led_timer := s.led_timer - 1 } : St).led_timer = n - 1 := by
      simp [h]
    rw [ih (n - 1) _ hstep (by omega)]
    have e : n - 1 - m = n - (m + 1) := by omega
    simp [e]

lemma tickN_countdown : ∀ (n : Nat) (s : St), 0 < n → s.led_timer = n →
    tickN n s =
      ({ s with
          led_timer := 0,
          shift_reg_state := s.shift_reg_state &&& (s.motion_enabled_strips ^^^ ALL_LEDS) },
       [s.shift_reg_state &&& (s.motion_enabled_strips ^^^ ALL_LEDS)]) := by
  intro n
  induction n with
  | zero => intro s hn; omega
  | succ n ih =>
    intro s hn h
    by_cases hn0 : n = 0
    · subst hn0
      simp only [tickN]
      rw [tick_false_expire s h]
      simp [tickN]
    · simp only [tickN]
      rw [tick_false_dec s (by omega) (by omega)]
      have hstep : ({ s with led_timer := s.led_timer - 1 } : St).led_timer = n := by
        simp [h]
      rw [ih _ (by omega) hstep]
      simp

lemma foldl_mod_add : ∀ (l : List Nat) (a : Nat), a < 65536 →
    l.foldl (fun sum r => (sum + r) % 65536) a = (a + l.sum) % 65536 := by
  intro l
  induction l with
  | nil =>
    intro a ha
    simp [Nat.mod_eq_of_lt ha]
  | cons x xs ih =>
    intro a ha
    simp only [List.foldl_cons, List.sum_cons]
    rw [ih _ (Nat.mod_lt _ (by norm_num))]
    rw [Nat.mod_add_mod, Nat.add_assoc]

lemma sum_le_of_bounds (l : List Nat) (h : ∀ r ∈ l, r ≤ 1023) :
    l.sum ≤ l.length * 1023 := by
  induction l with
  | nil => simp
  | cons x xs ih =>
    simp only [List.sum_cons, List.length_cons]
    have hx := h x (by simp)
    have hxs := ih (fun r hr => h r (by simp [hr]))
    have e : (xs.length + 1) * 1023 = 1023 + xs.length * 1023 := by ring
    omega

/-! Concrete states used to instantiate the theorems -/

/-- A state mid-countdown: timer armed, some strips on, low four strips
motion-eligible. -/
def stick : St :=
  { led_timer := 5, shift_reg_state := 0xAA, motion_enabled_strips := 0x0F,
    touch_baseline := 500, touch_debounce_cnt := 0, touch_state := false }

/-- A state one tick before expiry. -/
def stickOne : St :=
  { led_timer := 1, shift_reg_state := 0xAA, motion_enabled_strips := 0x0F,
    touch_baseline := 500, touch_debounce_cnt := 0, touch_state := false }

/-- A released state with four disagreeing scans already accumulated. -/
def stouch : St :=
  { led_timer := 0, shift_reg_state := 0, motion_enabled_strips := 0xFF,
    touch_baseline := 500, touch_debounce_cnt := 4, touch_state := false }

/-- A quiescent released state with baseline 500. -/
def scalm : St :=
  { led_timer := 0, shift_reg_state := 0, motion_enabled_strips := 0xFF,
    touch_baseline := 500, touch_debounce_cnt := 0, touch_state := false }

/-- A state with strip 1 already on (initial state for the C6 counterexample). -/
def sdirty : St :=
  { led_timer := 0, shift_reg_state := 1, motion_enabled_strips := 0xFF,
    touch_baseline := 0, touch_debounce_cnt := 0, touch_state := false }

/-- A released state with baseline 550 (dead-zone instantiation). -/
def sdrift : St :=
  { led_timer := 0, shift_reg_state := 0, motion_enabled_strips := 0xFF,
    touch_baseline := 550, touch_debounce_cnt := 0, touch_state := false }

/-! Claim theorems -/

/-- Claim C1: the 1 Hz tick handler satisfies the full case analysis —
motion asserted resets `led_timer` to `TIMEOUT_SEC` with no write; with
motion deasserted and `led_timer > 0` it decrements by one, clearing the
motion-eligible bits and writing exactly once on the tick that reaches 0;
at `led_timer = 0` it is a no-op. Starting from `led_timer = TIMEOUT_SEC`
with motion deasserted throughout, the timer reaches 0 after exactly
`TIMEOUT_SEC` ticks, the motion-eligible strips are turned off exactly
once (on the zero-crossing tick), and subsequent idle ticks perform no
further writes. -/
theorem tick_isr_spec (s t : St) (k : Nat) (h5 : s.led_timer = TIMEOUT_SEC) :
    (tick true t = ({ t with led_timer := TIMEOUT_SEC }, [])) ∧
    (0 < t.led_timer → t.led_timer ≠ 1 →
       tick false t = ({ t with led_timer := t.led_timer - 1 }, [])) ∧
    (t.led_timer = 1 →
       tick false t =
         ({ t with
             led_timer := 0,
             shift_reg_state := t.shift_reg_state &&& (t.motion_enabled_strips ^^^ ALL_LEDS) },
          [t.shift_reg_state &&& (t.motion_enabled_strips ^^^ ALL_LEDS)])) ∧
    (t.led_timer = 0 → tick false t = (t, [])) ∧
    ((tickN TIMEOUT_SEC s).1.led_timer = 0) ∧
    ((tickN (TIMEOUT_SEC - 1) s).2 = [] ∧
       (tickN (TIMEOUT_SEC - 1) s).1.led_timer = 1) ∧
    ((tickN (TIMEOUT_SEC + k) s).2 =
       [s.shift_reg_state &&& (s.motion_enabled_strips ^^^ ALL_LEDS)]) := by
  have hc := tickN_countdown TIMEOUT_SEC s (by decide) h5
  have hw := tickN_no_write (TIMEOUT_SEC - 1) TIMEOUT_SEC s h5 (by decide)
  refine ⟨tick_true_eq t, tick_false_dec t, tick_false_expire t, tick_false_idle t,
    ?_, ⟨?_, ?_⟩, ?_⟩
  · rw [hc]
  · rw [hw]
  · rw [hw]; rfl
  · rw [tickN_add TIMEOUT_SEC k s, hc]
    rw [tickN_idle k _ rfl]
    simp

/-- Instantiation of `tick_isr_spec`: from `stick` (timer 5, strips 0xAA,
eligibility 0x0F), five idle ticks zero the timer and three more idle
ticks still produce exactly the single write 0xA0 = 160. -/
theorem tick_isr_spec_witness :
    (tickN TIMEOUT_SEC stick).1.led_timer = 0 ∧
    (tickN (TIMEOUT_SEC + 3) stick).2 = [160] ∧
    tick false stickOne =
      ({ stickOne with led_timer := 0, shift_reg_state := 160 }, [160]) := by
  have h := tick_isr_spec stick stickOne 3 rfl
  refine ⟨h.2.2.2.2.1, h.2.2.2.2.2.2.trans (by decide), ?_⟩
  exact (h.2.2.1 rfl).trans (by decide)

/-- Claim C2: the motion-edge handler ORs `motion_enabled_strips` into
`shift_reg_state`, writes the new state exactly once, sets `led_timer`
to `TIMEOUT_SEC`, and modifies no other state. -/
theorem motion_edge_isr_spec (s : St) :
    (motionEdge s).1.shift_reg_state = s.shift_reg_state ||| s.motion_enabled_strips ∧
    (motionEdge s).1.led_timer = TIMEOUT_SEC ∧
    (motionEdge s).1.motion_enabled_strips = s.motion_enabled_strips ∧
    (motionEdge s).1.touch_baseline = s.touch_baseline ∧
    (motionEdge s).1.touch_debounce_cnt = s.touch_debounce_cnt ∧
    (motionEdge s).1.touch_state = s.touch_state ∧
    (motionEdge s).2 = [s.shift_reg_state ||| s.motion_enabled_strips] :=
  ⟨rfl, rfl, rfl, rfl, rfl, rfl, rfl⟩

/-- Claim C6, counterexample: the claim quantifies over all 8-bit masks
with no precondition on the initial state, but from a state with strip 1
already on, `strip_on 0` twice leaves `shift_reg_state = 1`, not
`0 ||| 0 = 0`. -/
theorem strip_on_compose_cex :
    (strip_on 0 (strip_on 0 sdirty).1).1.shift_reg_state = 1 ∧
    (0 : Nat) ||| 0 = 0 ∧ (1 : Nat) ≠ 0 := by
  decide

/-- Claim C6, amended: starting from all strips off
(`shift_reg_state = 0`), `strip_on m1` then `strip_on m2` leaves
`shift_reg_state = m1 ||| m2`; and from any state, `strip_off m1` after
`strip_set ALL_LEDS` leaves `shift_reg_state = ALL_LEDS &&& ~m1`. -/
theorem strip_compose_amended (m1 m2 : Nat) (s s2 : St)
    (hs : s.shift_reg_state = 0) :
    (strip_on m2 (strip_on m1 s).1).1.shift_reg_state = m1 ||| m2 ∧
    (strip_off m1 (strip_set ALL_LEDS s2).1).1.shift_reg_state =
      ALL_LEDS &&& (m1 ^^^ ALL_LEDS) := by
  constructor
  · simp [strip_on, hs]
  · simp [strip_off, strip_set]

/-- Instantiation of `strip_compose_amended` at `m1 = 3`, `m2 = 12` from
the all-off state: `3 ||| 12 = 15` and `0xFF &&& ~3 = 252`. -/
theorem strip_compose_amended_witness :
    (strip_on 12 (strip_on 3 scalm).1).1.shift_reg_state = 15 ∧
    (strip_off 3 (strip_set ALL_LEDS scalm).1).1.shift_reg_state = 252 := by
  have h := strip_compose_amended 3 12 scalm scalm rfl
  exact ⟨h.1.trans (by decide), h.2.trans (by decide)⟩

/-- Claim C7: `strip_motion_enable` and `strip_motion_disable` mutate
only `motion_enabled_strips` (OR-ing in, resp. AND-ing out, the mask);
they never change `shift_reg_state` and never write to the bus. -/
theorem motion_mask_frame (m : Nat) (s : St) :
    (strip_motion_enable m s).1.motion_enabled_strips = s.motion_enabled_strips ||| m ∧
    (strip_motion_enable m s).1.shift_reg_state = s.shift_reg_state ∧
    (strip_motion_enable m s).1.led_timer = s.led_timer ∧
    (strip_motion_enable m s).1.touch_baseline = s.touch_baseline ∧
    (strip_motion_enable m s).1.touch_debounce_cnt = s.touch_debounce_cnt ∧
    (strip_motion_enable m s).1.touch_state = s.touch_state ∧
    (strip_motion_enable m s).2 = [] ∧
    (strip_motion_disable m s).1.motion_enabled_strips =
      s.motion_enabled_strips &&& (m ^^^ ALL_LEDS) ∧
    (strip_motion_disable m s).1.shift_reg_state = s.shift_reg_state ∧
    (strip_motion_disable m s).1.led_timer = s.led_timer ∧
    (strip_motion_disable m s).1.touch_baseline = s.touch_baseline ∧
    (strip_motion_disable m s).1.touch_debounce_cnt = s.touch_debounce_cnt ∧
    (strip_motion_disable m s).1.touch_state = s.touch_state ∧
    (strip_motion_disable m s).2 = [] :=
  ⟨rfl, rfl, rfl, rfl, rfl, rfl, rfl, rfl, rfl, rfl, rfl, rfl, rfl, rfl⟩

/-- Claim C8: every operation that mutates `shift_reg_state` — the four
strip operations, the motion-edge handler, and the tick handler's expiry
branch — emits exactly one write, and that write equals the new value of
`shift_reg_state`. -/
theorem write_per_mutation (m : Nat) (s t : St) (ht : t.led_timer = 1) :
    (strip_on m s).2 = [(strip_on m s).1.shift_reg_state] ∧
    (strip_off m s).2 = [(strip_off m s).1.shift_reg_state] ∧
    (strip_set m s).2 = [(strip_set m s).1.shift_reg_state] ∧
    (strip_toggle m s).2 = [(strip_toggle m s).1.shift_reg_state] ∧
    (motionEdge s).2 = [(motionEdge s).1.shift_reg_state] ∧
    (tick false t).2 = [(tick false t).1.shift_reg_state] := by
  refine ⟨rfl, rfl, rfl, rfl, rfl, ?_⟩
  rw [tick_false_expire t ht]

/-- Instantiation of `write_per_mutation` at mask 0x55 from `scalm` and
the expiring state `stickOne`. -/
theorem write_per_mutation_witness :
    (strip_on 0x55 scalm).2 = [(strip_on 0x55 scalm).1.shift_reg_state] ∧
    (tick false stickOne).2 = [(tick false stickOne).1.shift_reg_state] := by
  have h := write_per_mutation 0x55 scalm stickOne rfl
  exact ⟨h.1, h.2.2.2.2.2⟩

/-- Claim C3: the confirmed touch state changes only after exactly
`TOUCH_DEBOUNCE` consecutive disagreeing scans — an agreeing scan resets
the counter to 0; a disagreeing scan below the threshold only increments
it; the scan that reaches the threshold commits the tentative state,
resets the counter, and drives all strips on (touch) or off (release);
and a single stray tentative-touch scan surrounded by released-agreeing
scans never changes the confirmed state. -/
theorem touch_debounce_spec (r : Nat) (s : St) (hsr : s.shift_reg_state < 256) :
    (tentativeOf r s.touch_baseline = s.touch_state →
       (touchScan r s).1.touch_state = s.touch_state ∧
       (touchScan r s).1.touch_debounce_cnt = 0 ∧
       (touchScan r s).2 = []) ∧
    (tentativeOf r s.touch_baseline ≠ s.touch_state →
       s.touch_debounce_cnt + 1 < TOUCH_DEBOUNCE →
       (touchScan r s).1.touch_state = s.touch_state ∧
       (touchScan r s).1.touch_debounce_cnt = s.touch_debounce_cnt + 1 ∧
       (touchScan r s).2 = []) ∧
    (tentativeOf r s.touch_baseline ≠ s.touch_state →
       s.touch_debounce_cnt = TOUCH_DEBOUNCE - 1 →
       (touchScan r s).1.touch_state = tentativeOf r s.touch_baseline ∧
       (touchScan r s).1.touch_debounce_cnt = 0 ∧
       (touchScan r s).1.shift_reg_state =
         (if tentativeOf r s.touch_baseline then ALL_LEDS else 0) ∧
       (touchScan r s).2 = [if tentativeOf r s.touch_baseline then ALL_LEDS else 0]) ∧
    (∀ r1 r2 r3 : Nat, s.touch_state = false →
       tentativeOf r1 s.touch_baseline = false →
       tentativeOf r2 (touchScan r1 s).1.touch_baseline = true →
       tentativeOf r3 (touchScan r2 (touchScan r1 s).1).1.touch_baseline = false →
       (touchScan r3 (touchScan r2 (touchScan r1 s).1).1).1.touch_state = false) := by
  refine ⟨?_, ?_, ?_, ?_⟩
  · intro h
    have ha := touchScan_agree r s h
    exact ⟨ha.1, ha.2.1, ha.2.2.2⟩
  · intro h hc
    have hp := touchScan_pending r s h hc
    exact ⟨hp.1, hp.2.1, hp.2.2.2⟩
  · intro h hc
    exact touchScan_commit r s h hc hsr
  · intro r1 r2 r3 hts h1 h2 h3
    have ha := touchScan_agree r1 s (by rw [h1, hts])
    have hts1 : (touchScan r1 s).1.touch_state = false := by rw [ha.1, hts]
    have hcnt1 : (touchScan r1 s).1.touch_debounce_cnt = 0 := ha.2.1
    have hp := touchScan_pending r2 (touchScan r1 s).1
      (by rw [h2, hts1]; simp) (by rw [hcnt1]; decide)
    have hts2 : (touchScan r2 (touchScan r1 s).1).1.touch_state = false := by
      rw [hp.1, hts1]
    have hc := touchScan_agree r3 (touchScan r2 (touchScan r1 s).1).1 (by rw [h3, hts2])
    rw [hc.1, hts2]

/-- Instantiation of `touch_debounce_spec`: from `stouch` (released,
counter at 4, baseline 500) one more scan reading 530 commits the touch
and writes 0xFF. -/
theorem touch_debounce_spec_witness :
    (touchScan 530 stouch).1.touch_state = true ∧
    (touchScan 530 stouch).2 = [255] := by
  have h := (touch_debounce_spec 530 stouch (by decide)).2.2.1 (by decide) (by decide)
  exact ⟨h.1.trans (by decide), h.2.2.2.trans (by decide)⟩

/-- Claim C4: `touch_baseline` is unchanged by any scan that ends with
the confirmed state touched (including the committing scan), and on any
scan that ends released (including the release-committing scan) the
baseline moves toward the reading by the absolute error shifted right by
`BASELINE_SHIFT`. -/
theorem baseline_freeze_resume (r : Nat) (s : St) (hr : r < 65536)
    (hb : s.touch_baseline < 65536) :
    ((touchScan r s).1.touch_state = true →
       (touchScan r s).1.touch_baseline = s.touch_baseline) ∧
    ((touchScan r s).1.touch_state = false →
       (touchScan r s).1.touch_baseline =
         (if s.touch_baseline < r then
            s.touch_baseline + ((r - s.touch_baseline) >>> BASELINE_SHIFT)
          else
            s.touch_baseline - ((s.touch_baseline - r) >>> BASELINE_SHIFT))) := by
  have hbase : (touchDebounceStep (tentativeOf r s.touch_baseline) s).1.touch_baseline
      = s.touch_baseline := touchDebounceStep_touch_baseline _ _
  have hscan : (touchScan r s).1 =
      baselineAdapt r s.touch_baseline
        (touchDebounceStep (tentativeOf r s.touch_baseline) s).1 := rfl
  constructor
  · intro ht
    rw [hscan] at ht ⊢
    have hts : (touchDebounceStep (tentativeOf r s.touch_baseline) s).1.touch_state = true := by
      rw [← baselineAdapt_touch_state r s.touch_baseline
        (touchDebounceStep (tentativeOf r s.touch_baseline) s).1]
      exact ht
    rw [baselineAdapt_frozen r s.touch_baseline _ hts, hbase]
  · intro hf
    rw [hscan] at hf ⊢
    have hts : (touchDebounceStep (tentativeOf r s.touch_baseline) s).1.touch_state = false := by
      rw [← baselineAdapt_touch_state r s.touch_baseline
        (touchDebounceStep (tentativeOf r s.touch_baseline) s).1]
      exact hf
    rw [baselineAdapt_active r s.touch_baseline _ hts, hbase]
    by_cases hlt : s.touch_baseline < r
    · rw [if_pos hlt, if_pos hlt]
      have hsh : (r - s.touch_baseline) >>> BASELINE_SHIFT ≤ r - s.touch_baseline :=
        shiftRight_le_self _ _
      exact Nat.mod_eq_of_lt (by omega)
    · rw [if_neg hlt, if_neg hlt]

/-- Instantiation of `baseline_freeze_resume`: a released scan of 700 on
baseline 500 adapts to 501 (error 200, step 200 >>> 7 = 1); the scan that
commits a touch leaves the baseline at 500. -/
theorem baseline_freeze_resume_witness :
    (touchScan 700 scalm).1.touch_baseline = 501 ∧
    (touchScan 530 stouch).1.touch_baseline = stouch.touch_baseline := by
  have h1 := (baseline_freeze_resume 700 scalm (by decide) (by decide)).2 (by decide)
  have h2 := (baseline_freeze_resume 530 stouch (by decide) (by decide)).1 (by decide)
  exact ⟨h1.trans (by decide), h2⟩

/-- Claim C5: end-to-end scenario — from baseline 500, released, counter
0, five scans reading 530 commit the touch exactly on the fifth scan and
turn all eight strips on with a single write; five further scans reading
500 commit the release exactly on the fifth of them and turn all strips
off with a single further write. -/
theorem end_to_end_touch_scenario :
    (runScans [530, 530, 530, 530] scalm).1.touch_state = false ∧
    (runScans [530, 530, 530, 530, 530] scalm).1.touch_state = true ∧
    (runScans [530, 530, 530, 530, 530] scalm).1.shift_reg_state = ALL_LEDS ∧
    (runScans [530, 530, 530, 530, 530] scalm).2 = [ALL_LEDS] ∧
    (runScans [530, 530, 530, 530, 530, 500, 500, 500, 500] scalm).1.touch_state
      = true ∧
    (runScans [530, 530, 530, 530, 530, 500, 500, 500, 500, 500] scalm).1.touch_state
      = false ∧
    (runScans [530, 530, 530, 530, 530, 500, 500, 500, 500, 500] scalm).1.shift_reg_state
      = 0 ∧
    (runScans [530, 530, 530, 530, 530, 500, 500, 500, 500, 500] scalm).2
      = [ALL_LEDS, 0] := by
  decide

/-- Claim C9: for 64 raw readings each at most 1023, the `uint16_t`
accumulator in `touch_measure_filtered` never wraps (the sum is at most
65472) and the result is the exact floor of the mean, `sum / 64`. -/
theorem filtered_mean_no_overflow (raw : List Nat) (hl : raw.length = TOUCH_SAMPLES)
    (hb : ∀ r ∈ raw, r ≤ 1023) :
    raw.sum ≤ 65472 ∧ touch_measure_filtered raw = raw.sum / 64 := by
  have hsum : raw.sum ≤ 65472 := by
    have h := sum_le_of_bounds raw hb
    rw [hl] at h
    norm_num [TOUCH_SAMPLES] at h
    exact h
  refine ⟨hsum, ?_⟩
  unfold touch_measure_filtered
  rw [foldl_mod_add raw 0 (by norm_num), Nat.zero_add,
      Nat.mod_eq_of_lt (by omega), Nat.shiftRight_eq_div_pow]

/-- Instantiation of `filtered_mean_no_overflow` at the worst case:
64 readings of 1023. -/
theorem filtered_mean_no_overflow_witness :
    (List.replicate 64 1023 : List Nat).sum ≤ 65472 ∧
    touch_measure_filtered (List.replicate 64 1023) =
      (List.replicate 64 1023 : List Nat).sum / 64 :=
  filtered_mean_no_overflow (List.replicate 64 1023) (by decide) (by decide)

/-- Claim C10: baseline adaptation has a 128-count dead zone — whenever
the reading deviates from `touch_baseline` by less than
`2 ^ BASELINE_SHIFT = 128` in either direction, the update term truncates
to 0 and the baseline is left exactly unchanged by the scan. -/
theorem baseline_dead_zone (r : Nat) (s : St) (hb : s.touch_baseline < 65536)
    (h1 : r - s.touch_baseline < 128) (h2 : s.touch_baseline - r < 128) :
    (touchScan r s).1.touch_baseline = s.touch_baseline := by
  have hbase : (touchDebounceStep (tentativeOf r s.touch_baseline) s).1.touch_baseline
      = s.touch_baseline := touchDebounceStep_touch_baseline _ _
  have hscan : (touchScan r s).1 =
      baselineAdapt r s.touch_baseline
        (touchDebounceStep (tentativeOf r s.touch_baseline) s).1 := rfl
  rw [hscan]
  cases hts : (touchDebounceStep (tentativeOf r s.touch_baseline) s).1.touch_state
  · rw [baselineAdapt_active r s.touch_baseline _ hts, hbase]
    by_cases hlt : s.touch_baseline < r
    · rw [if_pos hlt, shiftRight_small_eq_zero _ h1, Nat.add_zero, Nat.mod_eq_of_lt hb]
    · rw [if_neg hlt, shiftRight_small_eq_zero _ h2, Nat.sub_zero]
  · rw [baselineAdapt_frozen r s.touch_baseline _ hts, hbase]

/-- Instantiation of `baseline_dead_zone`: a released scan reading 600 on
baseline 550 (error 50 < 128) leaves the baseline at 550. -/
theorem baseline_dead_zone_witness :
    (touchScan 600 sdrift).1.touch_baseline = sdrift.touch_baseline :=
  baseline_dead_zone 600 sdrift (by decide) (by decide) (by decide)

end BookNook
